import Mathlib

/-!
Verification of the condition-enforcement and usage-telemetry core of
`c10/util/Logging.h` (PyTorch's c10 logging utilities).

The header defines the `CAFFE_ENFORCE` family of invariant-checking macros,
the rich comparison diagnostics (`CAFFE_ENFORCE_THAT_IMPL` and the
`CAFFE_ENFORCE_EQ`/`NE`/... wrappers built on `enforceFailMsgImpl`), the
one-shot API-usage telemetry (`C10_LOG_API_USAGE_ONCE` via
`LogAPIUsageFakeReturn`), the pluggable logger registry
(`SetAPIUsageLogger` / `LogAPIUsage`) and the passive `DDPLoggingData`
record.

Embedding choices:
* raising an error is modelled as returning `Except EnforcementError Unit`
  (the C++ functions are `[[noreturn]]` and throw);
* the opaque `const void* caller` pointer is modelled as `Option Nat`
  (an opaque identity, never dereferenced);
* a possibly side-effecting C++ operand expression is modelled as an
  explicit state transformer `σ → α × σ`;
* `c10::str` applied to a single value is modelled by a caller-supplied
  rendering function `α → String`; applied to a list of extra printable
  arguments it concatenates their renderings in order with no separator
  (`String.join`);
* the C++ `float` field `bucket_cap_mb` only matters here through its
  default value `-1.0`, which is exactly representable, so it is modelled
  as `Rat`.
-/

/-- The error kinds of the enforcement engine: `ThrowEnforceNotMet` raises a
generic invariant violation (`c10::Error` alias `EnforceNotMet`), while
`ThrowEnforceFiniteNotMet` raises the distinct non-finite-value kind
(`c10::EnforceFiniteError`). -/
inductive ErrorKind where
  | invariantViolation
  | nonFiniteValue
  deriving DecidableEq, Repr

/-- The typed error raised on an enforcement failure: source location
(file, line), the stringified condition text, the constructed message, and
the optional opaque caller identity. -/
structure EnforcementError where
  kind : ErrorKind
  file : String
  line : Nat
  condition : String
  msg : String
  caller : Option Nat
  deriving DecidableEq, Repr

/-- Modelled from the spec: the body of `ThrowEnforceNotMet` lives in
`c10/util/Logging.cpp`, which is not part of the sources; the header
declares it `[[noreturn]]` (lines 65-70) and the spec says it constructs an
`EnforcementError` from the arguments and raises it, never returning to the
call site. -/
def ThrowEnforceNotMet (file : String) (line : Nat) (condition : String)
    (msg : String) (caller : Option Nat) : Except EnforcementError Unit :=
  Except.error
    (EnforcementError.mk ErrorKind.invariantViolation file line condition msg caller)

/-- Modelled from the spec: the body of `ThrowEnforceFiniteNotMet` lives in
`c10/util/Logging.cpp`, not in the sources; the header declares it
`[[noreturn]]` (lines 88-93) and the spec says it is mechanically identical
to `ThrowEnforceNotMet` but raises a failure of a distinguishable kind. -/
def ThrowEnforceFiniteNotMet (file : String) (line : Nat) (condition : String)
    (msg : String) (caller : Option Nat) : Except EnforcementError Unit :=
  Except.error
    (EnforcementError.mk ErrorKind.nonFiniteValue file line condition msg caller)

/-- `CAFFE_ENFORCE(condition, ...)` (Logging.h lines 133-139): if the
condition is false, call `ThrowEnforceNotMet` with the call site's file and
line, the stringified condition text and the built message; otherwise do
nothing.  `C10_UNLIKELY` is only a branch-prediction hint. -/
def CAFFE_ENFORCE (condition : Bool) (file : String) (line : Nat)
    (condText : String) (msg : String) : Except EnforcementError Unit :=
  if !condition then ThrowEnforceNotMet file line condText msg none
  else Except.ok ()

/-- `CAFFE_ENFORCE_FINITE(condition, ...)` (Logging.h lines 141-147): same
shape as `CAFFE_ENFORCE` but routes the failure through
`ThrowEnforceFiniteNotMet`. -/
def CAFFE_ENFORCE_FINITE (condition : Bool) (file : String) (line : Nat)
    (condText : String) (msg : String) : Except EnforcementError Unit :=
  if !condition then ThrowEnforceFiniteNotMet file line condText msg none
  else Except.ok ()

/-- `CAFFE_THROW(...)` (Logging.h lines 157-158): unconditionally calls
`ThrowEnforceNotMet` with an empty condition text and the built message. -/
def CAFFE_THROW (file : String) (line : Nat) (msg : String) :
    Except EnforcementError Unit :=
  ThrowEnforceNotMet file line "" msg none

/-- The `detail::CompileTimeEmptyString` overload of `ThrowEnforceNotMet`
(Logging.h lines 79-86): inline in the header, it delegates to the
plain-string overload with the literal `""`. -/
def ThrowEnforceNotMetCompileTimeEmpty (file : String) (line : Nat)
    (condition : String) (caller : Option Nat) : Except EnforcementError Unit :=
  ThrowEnforceNotMet file line condition "" caller

/-- The `detail::CompileTimeEmptyString` overload of
`ThrowEnforceFiniteNotMet` (Logging.h lines 102-109): inline in the header,
it delegates to the plain-string overload with the literal `""`. -/
def ThrowEnforceFiniteNotMetCompileTimeEmpty (file : String) (line : Nat)
    (condition : String) (caller : Option Nat) : Except EnforcementError Unit :=
  ThrowEnforceFiniteNotMet file line condition "" caller

/-- `enforce_detail::enforceFailMsgImpl` (Logging.h lines 189-197).  Two
overloads: with no extra arguments the message is `str(x, " vs ", y)`;
with extra arguments it is `str(x, " vs ", y, ". ", args...)`.  `ra` and
`rb` render the operands; the extra arguments are passed already rendered
and `c10::str` concatenates them with no separator. -/
def enforceFailMsgImpl {α β : Type} (ra : α → String) (rb : β → String)
    (x : α) (y : β) (extra : List String) : String :=
  match extra with
  | [] => ra x ++ " vs " ++ rb y
  | args => ra x ++ " vs " ++ rb y ++ ". " ++ String.join args

/-- `CAFFE_ENFORCE_THAT_IMPL(op, lhs, rhs, expr, ...)` (Logging.h lines
199-214).  The macro expands to an immediately-invoked lambda
`([](const auto& lhs_, const auto& rhs_) { ... })(lhs, rhs)`: C++ evaluates
the operand expressions `lhs` and `rhs` exactly once each to produce the
lambda's arguments, and the lambda body refers only to the bound values
`lhs_`/`rhs_`.  Here the possibly side-effecting operand expressions are
state transformers on an arbitrary state `σ`, evaluated left to right, and
the lambda body is the pure test-and-throw on the two evaluated values. -/
def CAFFE_ENFORCE_THAT_IMPL {σ α β : Type} (op : α → β → Bool)
    (ra : α → String) (rb : β → String)
    (lhs : σ → α × σ) (rhs : σ → β × σ)
    (file : String) (line : Nat) (expr : String) (extra : List String)
    (s : σ) : Except EnforcementError Unit × σ :=
  let p := lhs s
  let q := rhs p.2
  (if !(op p.1 q.1) then
      ThrowEnforceNotMet file line expr (enforceFailMsgImpl ra rb p.1 q.1 extra) none
    else Except.ok (), q.2)

/-- The per-call-site state of `C10_LOG_API_USAGE_ONCE` (Logging.h lines
280-282): whether the static `logFlag` has been initialized, together with
the trace of contexts the underlying logger has been invoked with. -/
structure UsageFlag where
  fired : Bool
  log : List String
  deriving DecidableEq, Repr

/-- One execution of the `C10_LOG_API_USAGE_ONCE(...)` call site (Logging.h
lines 280-282): `static bool logFlag = LogAPIUsageFakeReturn(...)` runs the
initializer only the first time control reaches the statement.  Modelled
from the spec for the part outside the header: `LogAPIUsageFakeReturn`
(declared Logging.h line 364, body in Logging.cpp) invokes the registered
usage logger with the context and returns a value for the static-variable
initialization trick. -/
def C10_LOG_API_USAGE_ONCE (context : String) (s : UsageFlag) : UsageFlag :=
  if s.fired then s else UsageFlag.mk true (s.log ++ [context])

/-- `n` sequential executions of the same `C10_LOG_API_USAGE_ONCE` call
site. -/
def logApiUsageOnceIter (context : String) (n : Nat) (s : UsageFlag) : UsageFlag :=
  match n with
  | 0 => s
  | Nat.succ m => logApiUsageOnceIter context m (C10_LOG_API_USAGE_ONCE context s)

/-- The process-wide logger registry slot for API-usage events, with the
logger identified by an opaque value of type `L`. -/
structure LoggerRegistry (L : Type) where
  usage_logger : L
  deriving DecidableEq, Repr

/-- Modelled from the spec: `SetAPIUsageLogger` (declared Logging.h line
285, body in Logging.cpp) replaces the registry's current usage logger with
the supplied one. -/
def SetAPIUsageLogger {L : Type} (logger : L) (_r : LoggerRegistry L) :
    LoggerRegistry L :=
  LoggerRegistry.mk logger

/-- Modelled from the spec: `LogAPIUsage` (declared Logging.h line 286,
body in Logging.cpp) unconditionally invokes the currently registered usage
logger with the context.  The returned trace records each logger invocation
as a (logger, context) pair: one invocation per call. -/
def LogAPIUsage {L : Type} (context : String) (r : LoggerRegistry L) :
    List (L × String) :=
  [(r.usage_logger, context)]

/-- `DDPLoggingData` (Logging.h lines 293-357): a passive record of
distributed-data-parallel configuration and runtime counters, with the
default member initializers of the source.  `bucket_cap_mb` is a C++
`float` defaulted to `-1.0`, modelled as `Rat`. -/
structure DDPLoggingData where
  world_size : Int := -1
  rank : Int := -1
  module_name : String := ""
  device_ids : List Int := []
  output_device : Int := -1
  backend_name : String := ""
  dtype : String := ""
  total_parameter_size_bytes : Int := -1
  num_parameter_tensors : Int := -1
  bucket_sizes : List Int := []
  master_port : String := ""
  master_addr : String := ""
  cuda_visible_devices : String := ""
  gloo_socket_ifname : String := ""
  gloo_device_transport : String := ""
  nccl_socket_ifname : String := ""
  nccl_blocking_wait : String := ""
  nccl_debug : String := ""
  nccl_nthreads : String := ""
  nccl_ib_timeout : String := ""
  broadcast_buffers : Bool := false
  bucket_cap_mb : Rat := -1
  find_unused_parameters : Bool := false
  gradient_as_bucket_view : Bool := false
  iteration : Int := -1
  unused_parameter_size : Int := 0
  has_rebuilt_buckets : Bool := false
  rebuilt_bucket_sizes : List Int := []
  avg_forward_compute_time : Int := 0
  avg_backward_compute_time : Int := 0
  avg_backward_comm_time : Int := 0
  avg_backward_compute_comm_overlap_time : Int := 0
  deriving DecidableEq, Repr

/-- C1: `CAFFE_ENFORCE` with a true condition has no observable effect and
never raises; with a false condition it always raises an invariant-violation
error carrying exactly the condition text and the message passed at the
call site. -/
theorem caffe_enforce_true_ok_false_raises (file : String) (line : Nat)
    (condText msg : String) :
    CAFFE_ENFORCE true file line condText msg = Except.ok () ∧
    CAFFE_ENFORCE false file line condText msg =
      Except.error
        (EnforcementError.mk ErrorKind.invariantViolation file line condText msg none) := by
  constructor
  · rfl
  · rfl

/-- C2: `CAFFE_ENFORCE_THAT_IMPL` evaluates each operand expression exactly
once, regardless of the comparison result: the final state is exactly one
application of the left operand's transformer followed by exactly one
application of the right operand's, and in particular per-operand
evaluation counters each advance by exactly one. -/
theorem caffe_enforce_that_impl_evaluates_operands_once {σ α β : Type}
    (op : α → β → Bool) (ra : α → String) (rb : β → String)
    (lhs : σ → α × σ) (rhs : σ → β × σ)
    (file : String) (line : Nat) (expr : String) (extra : List String)
    (s : σ) (lv : α) (rv : β) (c : Nat × Nat) :
    (CAFFE_ENFORCE_THAT_IMPL op ra rb lhs rhs file line expr extra s).2 =
      (rhs (lhs s).2).2 ∧
    (CAFFE_ENFORCE_THAT_IMPL op ra rb
        (fun t => (lv, (t.1 + 1, t.2))) (fun t => (rv, (t.1, t.2 + 1)))
        file line expr extra c).2 = (c.1 + 1, c.2 + 1) := by
  constructor
  · simp only [CAFFE_ENFORCE_THAT_IMPL]
  · simp only [CAFFE_ENFORCE_THAT_IMPL]

/-- C3: at a single `C10_LOG_API_USAGE_ONCE` call site executed any positive
number of times sequentially from the initial not-fired state, the logger is
invoked exactly once, on the first execution, with the supplied context; and
once `fired` is true a further execution changes nothing, so the flag is
never reset. -/
theorem log_api_usage_once_fires_exactly_once (context : String) (n : Nat)
    (log : List String) :
    logApiUsageOnceIter context (n + 1) (UsageFlag.mk false []) =
      UsageFlag.mk true [context] ∧
    C10_LOG_API_USAGE_ONCE context (UsageFlag.mk true log) =
      UsageFlag.mk true log := by
  constructor
  · have fixed : ∀ m : Nat,
        logApiUsageOnceIter context m (UsageFlag.mk true [context]) =
          UsageFlag.mk true [context] := by
      intro m
      induction m with
      | zero => rfl
      | succ k ih =>
        simp only [logApiUsageOnceIter, C10_LOG_API_USAGE_ONCE]
        exact ih
    simp only [logApiUsageOnceIter, C10_LOG_API_USAGE_ONCE]
    simpa using fixed n
  · rfl

/-- C4: the comparison diagnostic takes no action when the operator holds on
the evaluated values, and otherwise raises through the enforcement engine
with condition text equal to the expression text and message
`render(lhs) ++ " vs " ++ render(rhs)`, followed by `". "` and the rendering
of the extra arguments exactly when the extra list is non-empty. -/
theorem caffe_enforce_that_impl_result {σ α β : Type} (op : α → β → Bool)
    (ra : α → String) (rb : β → String) (lv : α) (rv : β)
    (file : String) (line : Nat) (expr : String) (extra : List String)
    (s : σ) :
    CAFFE_ENFORCE_THAT_IMPL op ra rb (fun t => (lv, t)) (fun t => (rv, t))
        file line expr extra s =
      (if op lv rv then Except.ok () else
        Except.error
          (EnforcementError.mk ErrorKind.invariantViolation file line expr
            (ra lv ++ " vs " ++ rb rv ++
              (if extra = [] then "" else ". " ++ String.join extra)) none), s) := by
  simp only [CAFFE_ENFORCE_THAT_IMPL, ThrowEnforceNotMet, enforceFailMsgImpl]
  cases hop : op lv rv <;> cases extra <;> simp [enforceFailMsgImpl, String.append_assoc]

/-- C6: for the same false condition, location and message, a failure raised
via `ThrowEnforceFiniteNotMet` (`CAFFE_ENFORCE_FINITE`) and one raised via
`ThrowEnforceNotMet` (`CAFFE_ENFORCE`) are distinguishable by error kind:
the finite variant raises the non-finite-value kind, the plain variant the
invariant-violation kind, and the two raised errors are distinct. -/
theorem enforce_finite_distinguishable_from_enforce (file : String)
    (line : Nat) (condText msg : String) :
    CAFFE_ENFORCE_FINITE false file line condText msg =
      Except.error
        (EnforcementError.mk ErrorKind.nonFiniteValue file line condText msg none) ∧
    CAFFE_ENFORCE false file line condText msg =
      Except.error
        (EnforcementError.mk ErrorKind.invariantViolation file line condText msg none) ∧
    CAFFE_ENFORCE_FINITE false file line condText msg ≠
      CAFFE_ENFORCE false file line condText msg := by
  refine ⟨rfl, rfl, ?_⟩
  intro h
  simp only [CAFFE_ENFORCE_FINITE, CAFFE_ENFORCE, ThrowEnforceFiniteNotMet,
    ThrowEnforceNotMet, Bool.not_false, if_true, Except.error.injEq,
    EnforcementError.mk.injEq] at h
  exact absurd h.1 (by decide)

/-- C7: after `SetAPIUsageLogger L`, a subsequent `LogAPIUsage ctx` invokes
`L` with `ctx` exactly once (the invocation trace is precisely
`[(L, ctx)]`), and invokes no other logger: any logger distinct from `L`,
in particular any previously registered one, does not appear in the
trace. -/
theorem set_api_usage_logger_replaces {L : Type} (lg old : L)
    (r : LoggerRegistry L) (ctx : String) (hne : old ≠ lg) :
    LogAPIUsage ctx (SetAPIUsageLogger lg r) = [(lg, ctx)] ∧
    ∀ c : String, (old, c) ∉ LogAPIUsage ctx (SetAPIUsageLogger lg r) := by
  refine ⟨rfl, ?_⟩
  intro c hc
  simp only [LogAPIUsage, SetAPIUsageLogger, List.mem_singleton,
    Prod.mk.injEq] at hc
  exact hne hc.1

/-- Witness for C7 at concrete loggers `0 ≠ 1` and context `"ctx"`. -/
theorem set_api_usage_logger_replaces_witness :
    LogAPIUsage "ctx" (SetAPIUsageLogger 1 (LoggerRegistry.mk (0 : Nat))) =
      [((1 : Nat), "ctx")] ∧
    ∀ c : String,
      ((0 : Nat), c) ∉ LogAPIUsage "ctx" (SetAPIUsageLogger 1 (LoggerRegistry.mk (0 : Nat))) :=
  set_api_usage_logger_replaces 1 0 (LoggerRegistry.mk (0 : Nat)) "ctx" (by decide)

/-- C8: `CAFFE_THROW` raises unconditionally for every invocation — the
result is always an error, never `ok` — and the raised error carries the
supplied location and message together with an empty condition text. -/
theorem caffe_throw_always_raises (file : String) (line : Nat) (msg : String) :
    CAFFE_THROW file line msg =
      Except.error
        (EnforcementError.mk ErrorKind.invariantViolation file line "" msg none) ∧
    ∀ u : Unit, CAFFE_THROW file line msg ≠ Except.ok u := by
  refine ⟨rfl, ?_⟩
  intro u h
  exact Except.noConfusion h

/-- C9: for both `ThrowEnforceNotMet` and `ThrowEnforceFiniteNotMet`, the
compile-time-empty-string sentinel overload produces exactly the same error
as the plain-string overload applied to `""`: empty message in, empty
message out. -/
theorem compile_time_empty_string_overload_eq (file : String) (line : Nat)
    (condition : String) (caller : Option Nat) :
    ThrowEnforceNotMetCompileTimeEmpty file line condition caller =
      ThrowEnforceNotMet file line condition "" caller ∧
    ThrowEnforceFiniteNotMetCompileTimeEmpty file line condition caller =
      ThrowEnforceFiniteNotMet file line condition "" caller ∧
    (∀ e : EnforcementError,
      ThrowEnforceNotMetCompileTimeEmpty file line condition caller =
        Except.error e → e.msg = "") := by
  refine ⟨rfl, rfl, ?_⟩
  intro e he
  simp only [ThrowEnforceNotMetCompileTimeEmpty, ThrowEnforceNotMet,
    Except.error.injEq] at he
  rw [← he]

/-- C10: a default-constructed `DDPLoggingData` has every numeric
configuration field at the sentinel `-1` (`bucket_cap_mb` at `-1.0`), every
string field empty, every vector field empty, every boolean field false,
and `unused_parameter_size` and the four `avg_*` timing fields at `0`. -/
theorem ddp_logging_data_defaults :
    ({} : DDPLoggingData).world_size = -1 ∧
    ({} : DDPLoggingData).rank = -1 ∧
    ({} : DDPLoggingData).module_name = "" ∧
    ({} : DDPLoggingData).device_ids = [] ∧
    ({} : DDPLoggingData).output_device = -1 ∧
    ({} : DDPLoggingData).backend_name = "" ∧
    ({} : DDPLoggingData).dtype = "" ∧
    ({} : DDPLoggingData).total_parameter_size_bytes = -1 ∧
    ({} : DDPLoggingData).num_parameter_tensors = -1 ∧
    ({} : DDPLoggingData).bucket_sizes = [] ∧
    ({} : DDPLoggingData).master_port = "" ∧
    ({} : DDPLoggingData).master_addr = "" ∧
    ({} : DDPLoggingData).cuda_visible_devices = "" ∧
    ({} : DDPLoggingData).gloo_socket_ifname = "" ∧
    ({} : DDPLoggingData).gloo_device_transport = "" ∧
    ({} : DDPLoggingData).nccl_socket_ifname = "" ∧
    ({} : DDPLoggingData).nccl_blocking_wait = "" ∧
    ({} : DDPLoggingData).nccl_debug = "" ∧
    ({} : DDPLoggingData).nccl_nthreads = "" ∧
    ({} : DDPLoggingData).nccl_ib_timeout = "" ∧
    ({} : DDPLoggingData).broadcast_buffers = false ∧
    ({} : DDPLoggingData).bucket_cap_mb = -1 ∧
    ({} : DDPLoggingData).find_unused_parameters = false ∧
    ({} : DDPLoggingData).gradient_as_bucket_view = false ∧
    ({} : DDPLoggingData).iteration = -1 ∧
    ({} : DDPLoggingData).unused_parameter_size = 0 ∧
    ({} : DDPLoggingData).has_rebuilt_buckets = false ∧
    ({} : DDPLoggingData).rebuilt_bucket_sizes = [] ∧
    ({} : DDPLoggingData).avg_forward_compute_time = 0 ∧
    ({} : DDPLoggingData).avg_backward_compute_time = 0 ∧
    ({} : DDPLoggingData).avg_backward_comm_time = 0 ∧
    ({} : DDPLoggingData).avg_backward_compute_comm_overlap_time = 0 := by
  decide
